import Mathlib

/-!
Verification of the RecoverX detection-and-response core.

Shallow embedding of the algorithmic parts of the repository:
  * `src/src/threat_detector.py`  — heuristic threat scorer,
  * `src/src/backup_manager.py`   — versioned snapshot store with retention,
  * `src/src/recovery_engine.py`  — restore coordinator with fallback chain.

Modelling conventions:
  * timestamps (`datetime` values) are integers; only their ordering and
    differences are used by the code under study;
  * file paths are strings, assumed already absolute (the Python code
    normalises every key through `Path(...).absolute()` before use);
  * the filesystem is a partial map from path to `FileData`; a file's
    SHA-256 digest is modelled by its abstract `content` field, so hash
    equality is content equality (standard collision-freeness assumption);
  * transient I/O failure of `shutil.copy2` is modelled by the injected
    predicate `FS.copy_fails`; a failed copy leaves the filesystem unchanged;
  * logging calls are side effects invisible to every caller and are dropped;
  * the `recovery_stats` counters of `RecoveryEngine` are bookkeeping that no
    verified claim concerns and are not modelled.
-/

namespace RecoverX

/-- Model of Python's `str.lower()`: per-character lowering (the paths and
extensions in this code base are ASCII). -/
def strToLower (s : String) : String := ⟨s.data.map Char.toLower⟩

/-- Model of Python's `str.endswith(suffix)`: suffix test on the character
sequence. -/
def strEndsWith (s suf : String) : Bool := suf.data.isSuffixOf s.data

/-! Part 1: `file_monitor.py` data model. -/

/-- `FileEvent` dataclass of `src/src/file_monitor.py`. -/
structure FileEvent where
  timestamp : Int
  file_path : String
  event_type : String
  file_size : Nat
deriving DecidableEq, Repr

/-! Part 2: `threat_detector.py`. -/

/-- `DetectionResult` dataclass of `src/src/threat_detector.py`. -/
structure DetectionResult where
  is_threat : Bool
  threat_score : Nat
  affected_files : List String
  detection_reason : String
  timestamp : Int
deriving DecidableEq, Repr

/-- Configuration state of `ThreatDetector.__init__`.  The constructor stores
`suspicious_extensions` already case-folded; see `ThreatDetector.init`. -/
structure ThreatDetector where
  detection_threshold : Nat
  time_window_seconds : Nat
  suspicious_extensions : List String
deriving DecidableEq, Repr

/-- Default extension list used when `ThreatDetector.__init__` receives
`suspicious_extensions=None`. -/
def defaultSuspiciousExtensions : List String :=
  [".encrypted", ".locked", ".crypto", ".crypt", ".enc", ".vault"]

/-- `ThreatDetector.__init__`: lower-cases every configured extension before
storing it. -/
def ThreatDetector.init (detection_threshold time_window_seconds : Nat)
    (exts : List String) : ThreatDetector :=
  { detection_threshold := detection_threshold
    time_window_seconds := time_window_seconds
    suspicious_extensions := exts.map strToLower }

/-- `ThreatDetector._filter_recent_events`: keep events strictly newer than
`now - time_window_seconds`. -/
def ThreatDetector.filter_recent_events (td : ThreatDetector) (now : Int)
    (events : List FileEvent) : List FileEvent :=
  events.filter (fun e => decide (now - (td.time_window_seconds : Int) < e.timestamp))

/-- The membership test `event.event_type in ['modified', 'created']` used by
both the rate check and the extension check. -/
def isModificationEvent (e : FileEvent) : Bool :=
  e.event_type == "modified" || e.event_type == "created"

/-- `ThreatDetector._check_modification_rate`. -/
def ThreatDetector.check_modification_rate (td : ThreatDetector)
    (events : List FileEvent) : Nat × List String :=
  let modification_events := events.filter isModificationEvent
  let modification_count := modification_events.length
  let affected_files := modification_events.map (·.file_path)
  if td.detection_threshold ≤ modification_count then
    let excess := modification_count - td.detection_threshold
    (min (30 + excess * 5) 50, affected_files)
  else
    (0, [])

/-- The inner loop of `_check_suspicious_extensions`: the Python `for ext ...:
if file_path.endswith(ext): ...; break` marks the event iff some stored
extension is a suffix of the lower-cased path. -/
def ThreatDetector.has_stored_suspicious_ext (td : ThreatDetector)
    (file_path : String) : Bool :=
  td.suspicious_extensions.any (fun ext => strEndsWith (strToLower file_path) ext)

/-- `ThreatDetector._check_suspicious_extensions`. -/
def ThreatDetector.check_suspicious_extensions (td : ThreatDetector)
    (events : List FileEvent) : Nat × List String :=
  let suspicious_files :=
    (events.filter (fun e =>
      isModificationEvent e && td.has_stored_suspicious_ext e.file_path)).map (·.file_path)
  if 0 < suspicious_files.length then
    (min (40 + suspicious_files.length * 10) 60, suspicious_files)
  else
    (0, [])

/-- First-occurrence order of the distinct members of a list; the key order of
a Python dict built by insertion, as in `_check_file_size_changes`. -/
def firstOccurrences (l : List String) : List String :=
  l.foldl (fun acc p => if p ∈ acc then acc else acc ++ [p]) []

/-- Stable ascending insertion by timestamp: a later-arriving event goes after
every already-placed event with an equal or smaller timestamp. -/
def insertByTimestamp (e : FileEvent) : List FileEvent → List FileEvent
  | [] => [e]
  | x :: xs =>
    if x.timestamp ≤ e.timestamp then x :: insertByTimestamp e xs
    else e :: x :: xs

/-- Model of `list.sort(key=lambda x: x.timestamp)`: Python's sort is stable,
and any stable ascending sort computes the same list. -/
def sortByTimestamp (l : List FileEvent) : List FileEvent :=
  l.foldl (fun acc e => insertByTimestamp e acc) []

/-- One consecutive comparison of `_check_file_size_changes`: previous size
positive, current size strictly larger, and `curr_size / prev_size > 1.2`.
The Python float comparison is modelled by the exact rational inequality
`prev * 6 < curr * 5`; for the integer byte sizes involved the two agree
(in particular a ratio of exactly 1.2 is not flagged by either). -/
def suspiciousGrowthStep (prev curr : FileEvent) : Bool :=
  0 < prev.file_size && prev.file_size < curr.file_size &&
    prev.file_size * 6 < curr.file_size * 5

/-- Scan of the timestamp-sorted per-path event group: the Python loop appends
the path and `break`s at the first suspicious consecutive pair, so a path is
marked (once) iff some consecutive pair is suspicious. -/
def hasSuspiciousGrowth : List FileEvent → Bool
  | a :: b :: rest => suspiciousGrowthStep a b || hasSuspiciousGrowth (b :: rest)
  | _ => false

/-- `ThreatDetector._check_file_size_changes` (the method reads no detector
configuration, so it is a plain function here): group `modified` events by
path in first-occurrence order, sort each group by timestamp, collect the
paths with a suspicious consecutive size jump.  Groups of fewer than two
events are skipped by the Python guard `len >= 2`; on such groups
`hasSuspiciousGrowth` is `false`, so the filter is unchanged. -/
def check_file_size_changes (events : List FileEvent) : Nat × List String :=
  let modified_events := events.filter (fun e => e.event_type == "modified")
  let group_paths := firstOccurrences (modified_events.map (·.file_path))
  let suspicious_files := group_paths.filter (fun p =>
    hasSuspiciousGrowth (sortByTimestamp (modified_events.filter (fun e => e.file_path == p))))
  if 0 < suspicious_files.length then
    (min (20 + suspicious_files.length * 5) 30, suspicious_files)
  else
    (0, [])

/-- `ThreatDetector.analyze_events`.  `now` stands for `datetime.now()` at the
call.  The surrounding `try/except` is omitted: every step of the model is
total, so the handler is unreachable.  Python's duplicate removal
`list(set(affected_files))` has unspecified order; the model fixes
first-occurrence order (no claim depends on that order). -/
def ThreatDetector.analyze_events (td : ThreatDetector) (now : Int)
    (events : List FileEvent) : DetectionResult :=
  let recent_events := td.filter_recent_events now events
  if recent_events.isEmpty then
    { is_threat := false, threat_score := 0, affected_files := [],
      detection_reason := "No recent file activity", timestamp := now }
  else
    let modification := td.check_modification_rate recent_events
    let extension := td.check_suspicious_extensions recent_events
    let size := check_file_size_changes recent_events
    let threat_score := modification.1 + extension.1 + size.1
    let affected_files := firstOccurrences (modification.2 ++ extension.2 ++ size.2)
    let mod_count := modification.2.length
    let ext_count := extension.2.length
    let size_count := size.2.length
    let window := td.time_window_seconds
    let detection_reasons :=
      (if 0 < modification.1 then
        [s!"High modification rate: {mod_count} files in {window}s"] else []) ++
      (if 0 < extension.1 then
        [s!"Suspicious file extensions detected: {ext_count} files"] else []) ++
      (if 0 < size.1 then
        [s!"Rapid file size changes: {size_count} files"] else [])
    let is_threat := 50 ≤ threat_score
    { is_threat := is_threat
      threat_score := min threat_score 100
      affected_files := affected_files
      detection_reason :=
        if detection_reasons.isEmpty then "No threats detected"
        else String.intercalate "; " detection_reasons
      timestamp := now }

/-! Part 3: `backup_manager.py`. -/

/-- Abstract content of a file on disk: its byte size and an abstract token
standing for its byte string (equal tokens iff equal bytes, hence iff equal
SHA-256 digests). -/
structure FileData where
  size : Nat
  content : Nat
deriving DecidableEq, Repr

/-- The filesystem seen by backup and recovery: a partial map from path to
data, plus an injected predicate saying which `shutil.copy2` invocations fail
with an `OSError`. -/
structure FS where
  files : String → Option FileData
  copy_fails : String → String → Bool

/-- Write (create or overwrite) a file. -/
def FS.write (fs : FS) (path : String) (data : FileData) : FS :=
  { fs with files := fun q => if q = path then some data else fs.files q }

/-- `Path.unlink`: remove a file. -/
def FS.delete (fs : FS) (path : String) : FS :=
  { fs with files := fun q => if q = path then none else fs.files q }

/-- `shutil.copy2 src dst`: raises if the source is unreadable or the copy
fails; on success the destination holds the source's bytes.  A failed copy
leaves the filesystem unchanged in this model. -/
def FS.copy2 (fs : FS) (src dst : String) : Except String FS :=
  match fs.files src with
  | none => .error s!"No such file: {src}"
  | some data =>
    if fs.copy_fails src dst then .error s!"Copy failed: {src}"
    else .ok (fs.write dst data)

/-- `BackupRecord` dataclass of `src/src/backup_manager.py`. -/
structure BackupRecord where
  original_path : String
  backup_path : String
  timestamp : Int
  file_size : Nat
deriving DecidableEq, Repr

/-- State of a `BackupManager`: the backup directory, the retention limit and
the `backup_records` index.  The Python `Dict[str, List[BackupRecord]]` is a
total map defaulting to `[]` (absence of a key and presence with an empty
list are indistinguishable to every reader of the index). -/
structure BackupManager where
  backup_directory : String
  retention_count : Nat
  backup_records : String → List BackupRecord

/-- Point update of the `backup_records` index. -/
def BackupManager.setRecords (bm : BackupManager) (key : String)
    (records : List BackupRecord) : BackupManager :=
  { bm with backup_records := fun q => if q = key then records else bm.backup_records q }

/-- Stable descending insertion by timestamp: a later-arriving record goes
after every already-placed record with an equal or larger timestamp. -/
def insertRecordDesc (r : BackupRecord) : List BackupRecord → List BackupRecord
  | [] => [r]
  | x :: xs =>
    if r.timestamp ≤ x.timestamp then x :: insertRecordDesc r xs
    else r :: x :: xs

/-- Model of `records.sort(key=lambda x: x.timestamp, reverse=True)`:
Python's sort is stable also under `reverse=True`, and any stable descending
sort computes the same list. -/
def sortRecordsDesc (l : List BackupRecord) : List BackupRecord :=
  l.foldl (fun acc r => insertRecordDesc r acc) []

/-- Backup filename generated by `create_backup`.  The Python code writes
`
  backup_directory/stem_YYYYMMDD_HHMMSS_mmm.suffix
`, a name determined by the source's base name and the millisecond
timestamp; the model keeps the whole source path in the name, which preserves
the property actually used — distinct timestamps for the same source give
distinct backup paths — without modelling string surgery on stems and
suffixes. -/
def backup_name (bm : BackupManager) (path : String) (now : Int) : String :=
  bm.backup_directory ++ "/" ++ path ++ "_" ++ toString now

/-- `BackupManager._cleanup_old_backups`: sort the path's records newest
first (in place — the sorted list is stored back even when nothing is
evicted), keep the first `retention_count`, unlink the backing file of each
evicted record that still exists, and return the number of files removed.
The Python guard `if original_file not in self.backup_records: return 0`
coincides with running the body on the default `[]`.  The per-file
`except` around `unlink` is not modelled (deletion is total here). -/
def BackupManager.cleanup_old_backups (bm : BackupManager) (fs : FS)
    (original_file : String) : BackupManager × FS × Nat :=
  let records := sortRecordsDesc (bm.backup_records original_file)
  if records.length ≤ bm.retention_count then
    (bm.setRecords original_file records, fs, 0)
  else
    let excess_records := records.drop bm.retention_count
    let acc := excess_records.foldl
      (fun (acc : FS × Nat) r =>
        match acc.1.files r.backup_path with
        | some _ => (acc.1.delete r.backup_path, acc.2 + 1)
        | none => acc)
      (fs, 0)
    (bm.setRecords original_file (records.take bm.retention_count), acc.1, acc.2)

/-- Raisable errors inside `create_backup`'s `try` block. -/
inductive PyError where
  | fileNotFound (msg : String)
  | ioError (msg : String)
deriving DecidableEq, Repr

/-- The `try` block of `BackupManager.create_backup`: fail if the source does
not exist, copy it to the timestamped backup path, record its size, append
the record to the path's history, then evict beyond the retention limit.
`now` stands for `datetime.datetime.now()`. -/
def BackupManager.create_backup_body (bm : BackupManager) (fs : FS)
    (file_path : String) (now : Int) :
    Except PyError (BackupRecord × BackupManager × FS) :=
  match fs.files file_path with
  | none => .error (.fileNotFound s!"Source file does not exist: {file_path}")
  | some data =>
    let backup_path := backup_name bm file_path now
    match fs.copy2 file_path backup_path with
    | .error msg => .error (.ioError msg)
    | .ok fs1 =>
      let backup_record : BackupRecord :=
        { original_path := file_path, backup_path := backup_path,
          timestamp := now, file_size := data.size }
      let bm1 := bm.setRecords file_path (bm.backup_records file_path ++ [backup_record])
      let cleaned := bm1.cleanup_old_backups fs1 file_path
      .ok (backup_record, cleaned.1, cleaned.2.1)

/-- `BackupManager.create_backup`: the `except` handler turns any internal
error into the failure result `None`, leaving the index untouched (every
raise point of the body precedes the first index mutation) and, in this
model, the filesystem untouched. -/
def BackupManager.create_backup (bm : BackupManager) (fs : FS)
    (file_path : String) (now : Int) : Option BackupRecord × BackupManager × FS :=
  match bm.create_backup_body fs file_path now with
  | .ok (record, bm1, fs1) => (some record, bm1, fs1)
  | .error _ => (none, bm, fs)

/-- `BackupManager.list_backups`: the path's records sorted newest first. -/
def BackupManager.list_backups (bm : BackupManager) (original_file : String) :
    List BackupRecord :=
  sortRecordsDesc (bm.backup_records original_file)

/-- `BackupManager.get_latest_backup`: head of the newest-first list. -/
def BackupManager.get_latest_backup (bm : BackupManager) (original_file : String) :
    Option BackupRecord :=
  (bm.list_backups original_file).head?

/-! Part 4: `recovery_engine.py`. -/

/-- `RecoveryResult` dataclass of `src/src/recovery_engine.py`. -/
structure RecoveryResult where
  file_path : String
  success : Bool
  backup_used : Option String
  error_message : Option String
  verification_passed : Bool
deriving DecidableEq, Repr

/-- `RecoveryEngine._verify_file_hash`: SHA-256 digests of the two files
compared; any failure to read either file is caught and yields `False`. -/
def verify_file_hash (fs : FS) (file1_path file2_path : String) : Bool :=
  match fs.files file1_path, fs.files file2_path with
  | some d1, some d2 => d1.content == d2.content
  | _, _ => false

/-- `RecoveryEngine.verify_restoration`: the restored file must exist and its
size must equal the record's size; after that, a hash mismatch is only logged
as a warning — the function still returns `True` (the code's comment: "Still
consider successful if size matches"). -/
def verify_restoration (fs : FS) (file_path : String)
    (backup_record : BackupRecord) : Bool :=
  match fs.files file_path with
  | none => false
  | some data =>
    if data.size ≠ backup_record.file_size then false
    else if verify_file_hash fs file_path backup_record.backup_path then
      true
    else
      true

/-- `RecoveryEngine._attempt_restore_from_backup`: fail if the backup file is
missing or the copy over the target raises; otherwise the result is a success
whose `verification_passed` field carries the (non-fatal) verification
verdict.  `mkdir(parents=True, exist_ok=True)` on the target's parent is a
no-op in the path-map filesystem model. -/
def attempt_restore_from_backup (fs : FS) (file_path : String)
    (backup_record : BackupRecord) (verify_integrity : Bool) :
    RecoveryResult × FS :=
  match fs.files backup_record.backup_path with
  | none =>
    let bp := backup_record.backup_path
    ({ file_path := file_path, success := false, backup_used := some bp,
       error_message := some s!"Backup file does not exist: {bp}",
       verification_passed := false }, fs)
  | some data =>
    if fs.copy_fails backup_record.backup_path file_path then
      ({ file_path := file_path, success := false,
         backup_used := some backup_record.backup_path,
         error_message := some "Error during restoration: copy failed",
         verification_passed := false }, fs)
    else
      let fs1 := fs.write file_path data
      let verification_passed :=
        if verify_integrity then verify_restoration fs1 file_path backup_record
        else true
      ({ file_path := file_path, success := true,
         backup_used := some backup_record.backup_path,
         error_message := none,
         verification_passed := verification_passed }, fs1)

/-- The `for backup_record in fallback_backups` loop of
`RecoveryEngine._try_fallback_backups`, returning at the first success;
exhaustion yields the failure with message
"All backup restoration attempts failed". -/
def try_fallback_loop (file_path : String) (verify_integrity : Bool) :
    List BackupRecord → FS → RecoveryResult × FS
  | [], fs =>
    ({ file_path := file_path, success := false, backup_used := none,
       error_message := some "All backup restoration attempts failed",
       verification_passed := false }, fs)
  | backup_record :: rest, fs =>
    let attempt := attempt_restore_from_backup fs file_path backup_record verify_integrity
    if attempt.1.success then attempt
    else try_fallback_loop file_path verify_integrity rest attempt.2

/-- `RecoveryEngine._try_fallback_backups`: drop the newest version (it
already failed), fail immediately when no older version exists, otherwise run
the fallback loop.  `all_backups[1:] if len(all_backups) > 1 else []` is the
tail in every case. -/
def try_fallback_backups (bm : BackupManager) (fs : FS) (file_path : String)
    (verify_integrity : Bool) : RecoveryResult × FS :=
  let all_backups := bm.list_backups file_path
  let fallback_backups := all_backups.tail
  if fallback_backups.isEmpty then
    ({ file_path := file_path, success := false, backup_used := none,
       error_message := some "No fallback backups available",
       verification_passed := false }, fs)
  else
    try_fallback_loop file_path verify_integrity fallback_backups fs

/-- `RecoveryEngine.restore_file`: try the newest backup, fall back to the
older versions when that attempt fails.  The outer `try/except` is omitted
(every step of the model is total), and the `recovery_stats` bookkeeping is
not modelled. -/
def restore_file (bm : BackupManager) (fs : FS) (file_path : String)
    (verify_integrity : Bool) : RecoveryResult × FS :=
  match bm.get_latest_backup file_path with
  | none =>
    ({ file_path := file_path, success := false, backup_used := none,
       error_message := some s!"No backup found for file: {file_path}",
       verification_passed := false }, fs)
  | some latest_backup =>
    let attempt := attempt_restore_from_backup fs file_path latest_backup verify_integrity
    if attempt.1.success then attempt
    else try_fallback_backups bm attempt.2 file_path verify_integrity

/-! Part 5: concrete fixtures for the scenario halves of the claims. -/

/-- A `modified` event at time `t` on path `p` with observed size `sz`. -/
def mkModEvent (t : Int) (p : String) (sz : Nat) : FileEvent :=
  { timestamp := t, file_path := p, event_type := "modified", file_size := sz }

/-- Seven modify events on distinct paths. -/
def sevenModEvents : List FileEvent :=
  [mkModEvent 1 "f1" 10, mkModEvent 2 "f2" 10, mkModEvent 3 "f3" 10,
   mkModEvent 4 "f4" 10, mkModEvent 5 "f5" 10, mkModEvent 6 "f6" 10,
   mkModEvent 7 "f7" 10]

/-- Exactly two modify events on paths ending in `.locked` in mixed case. -/
def twoLockedEvents : List FileEvent :=
  [mkModEvent 1 "doc1.LOCKED" 10, mkModEvent 2 "doc2.locked" 10]

/-- One file growing from 100 to 130 bytes between two modify events. -/
def growthPairEvents : List FileEvent :=
  [mkModEvent 1 "a.txt" 100, mkModEvent 2 "a.txt" 130]

/-- One file growing from 100 to 110 bytes between two modify events. -/
def smallGrowthPairEvents : List FileEvent :=
  [mkModEvent 1 "a.txt" 100, mkModEvent 2 "a.txt" 110]

/-- Filesystem with no files and no transient copy failures. -/
def emptyFS : FS := { files := fun _ => none, copy_fails := fun _ _ => false }

/-- A snapshot store with retention 2 and an empty index. -/
def retentionTwoBM : BackupManager :=
  { backup_directory := "/backups", retention_count := 2,
    backup_records := fun _ => [] }

/-- Filesystem holding a single 4-byte source file and never failing a copy. -/
def oneFileFS : FS :=
  { files := fun q => if q = "/data/f.txt" then some { size := 4, content := 7 } else none,
    copy_fails := fun _ _ => false }

/-- First backup creation of the retention scenario (`retentionCount = 2`,
`retentionCount + 1 = 3` creations at timestamps 0, 1, 2). -/
def retentionStep1 : Option BackupRecord × BackupManager × FS :=
  retentionTwoBM.create_backup oneFileFS "/data/f.txt" 0

/-- Second backup creation of the retention scenario. -/
def retentionStep2 : Option BackupRecord × BackupManager × FS :=
  retentionStep1.2.1.create_backup retentionStep1.2.2 "/data/f.txt" 1

/-- Third backup creation of the retention scenario. -/
def retentionStep3 : Option BackupRecord × BackupManager × FS :=
  retentionStep2.2.1.create_backup retentionStep2.2.2 "/data/f.txt" 2

/-- Older backup record of the fallback scenario. -/
def fbRec1 : BackupRecord :=
  { original_path := "/data/f.txt", backup_path := "/backups/f_1",
    timestamp := 1, file_size := 4 }

/-- Newer backup record of the fallback scenario. -/
def fbRec2 : BackupRecord :=
  { original_path := "/data/f.txt", backup_path := "/backups/f_2",
    timestamp := 2, file_size := 4 }

/-- Store holding two backup versions of one file (index in creation order;
`list_backups` sorts it newest first). -/
def fallbackBM : BackupManager :=
  { backup_directory := "/backups", retention_count := 5,
    backup_records := fun q => if q = "/data/f.txt" then [fbRec1, fbRec2] else [] }

/-- Disk state after the newest backup's file was deleted: only the older
backup's file remains. -/
def fallbackFS : FS :=
  { files := fun q => if q = "/backups/f_1" then some { size := 4, content := 9 } else none,
    copy_fails := fun _ _ => false }

/-- Disk state where the restored file and the backup file have equal sizes
but different contents (hence different SHA-256 digests). -/
def mismatchFS : FS :=
  { files := fun q =>
      if q = "/data/f.txt" then some { size := 4, content := 9 }
      else if q = "/backups/f_1" then some { size := 4, content := 8 }
      else none,
    copy_fails := fun _ _ => false }

/-- A backup record whose recorded size matches no file on disk. -/
def badSizeRec : BackupRecord :=
  { original_path := "/data/f.txt", backup_path := "/backups/f_1",
    timestamp := 1, file_size := 999 }

/-! Part 6: specification-side characterizations used by the theorems. -/

/-- The growth heuristic's flag for one timestamp-sorted per-path group, as
the specification words it: some consecutive pair has positive previous size
and a size increase of strictly more than 20 percent. -/
def growthFlagged (l : List FileEvent) : Prop :=
  ∃ pr ∈ l.zip l.tail,
    0 < pr.1.file_size ∧ pr.1.file_size < pr.2.file_size ∧
      pr.1.file_size * 6 < pr.2.file_size * 5

instance growthFlaggedDecidable (l : List FileEvent) : Decidable (growthFlagged l) := by
  unfold growthFlagged
  exact inferInstance

/-! Part 7: helper lemmas. -/

/-- The Boolean event-kind test agrees with the specification's predicate. -/
theorem isModificationEvent_eq (e : FileEvent) :
    isModificationEvent e =
      decide (e.event_type = "created" ∨ e.event_type = "modified") := by
  rw [Bool.eq_iff_iff]
  simp [isModificationEvent, or_comm]

/-- The stored-extension test agrees with the specification's existential. -/
theorem has_stored_suspicious_ext_eq (td : ThreatDetector) (p : String) :
    td.has_stored_suspicious_ext p =
      decide (∃ ext ∈ td.suspicious_extensions, strEndsWith (strToLower p) ext) := by
  rw [Bool.eq_iff_iff]
  simp [ThreatDetector.has_stored_suspicious_ext]

/-- The group scan flags a group iff some consecutive pair is suspicious. -/
theorem hasSuspiciousGrowth_iff : ∀ l, hasSuspiciousGrowth l = true ↔ growthFlagged l
  | [] => by simp [hasSuspiciousGrowth, growthFlagged]
  | [_] => by simp [hasSuspiciousGrowth, growthFlagged]
  | a :: b :: rest => by
    have ih := hasSuspiciousGrowth_iff (b :: rest)
    simp only [hasSuspiciousGrowth, growthFlagged, suspiciousGrowthStep,
      Bool.or_eq_true, Bool.and_eq_true, decide_eq_true_eq] at *
    constructor
    · rintro (⟨⟨h1, h2⟩, h3⟩ | h)
      · exact ⟨(a, b), by simp [List.zip], h1, h2, h3⟩
      · obtain ⟨pr, hmem, hpr⟩ := ih.mp h
        exact ⟨pr, by simp [List.zip] at hmem ⊢; right; exact hmem, hpr⟩
    · rintro ⟨pr, hmem, h1, h2, h3⟩
      simp [List.zip] at hmem
      rcases hmem with hmem | hmem
      · left
        subst hmem
        exact ⟨⟨h1, h2⟩, h3⟩
      · right
        exact ih.mpr ⟨pr, by simpa [List.zip] using hmem, h1, h2, h3⟩

/-! Part 8: the claims. -/

/-- C1: for every event batch, `ThreatDetector.analyze_events` returns a
result whose score is the sum of the rate, extension and growth sub-scores
computed on the in-window events, capped at 100 (hence always in [0,100] —
the lower bound holds because scores are naturals), and whose `is_threat`
flag is true iff that score is at least 50.  The detector carries no
response-threshold configuration at all (`ThreatDetector` has no such field
and `analyze_events` no such argument), so the verdict is independent of any
configured response threshold.  The hypothesis `0 < detection_threshold`
reflects the configuration contract (`detectionThreshold` is a positive
integer). -/
theorem C1_total_score_and_threat_floor (td : ThreatDetector) (now : Int)
    (events : List FileEvent) (ht : 0 < td.detection_threshold) :
    (td.analyze_events now events).threat_score =
      min ((td.check_modification_rate (td.filter_recent_events now events)).1 +
        (td.check_suspicious_extensions (td.filter_recent_events now events)).1 +
        (check_file_size_changes (td.filter_recent_events now events)).1) 100
    ∧ ((td.analyze_events now events).is_threat = true ↔
        50 ≤ (td.analyze_events now events).threat_score)
    ∧ (td.analyze_events now events).threat_score ≤ 100 := by
  unfold ThreatDetector.analyze_events
  by_cases hemp : (td.filter_recent_events now events).isEmpty
  · rw [List.isEmpty_iff] at hemp
    rw [hemp]
    simp only [List.isEmpty_nil, if_true]
    have hmod : td.check_modification_rate [] = (0, []) := by
      unfold ThreatDetector.check_modification_rate
      simp only [List.filter_nil, List.length_nil, List.map_nil]
      rw [if_neg (by omega)]
    have hext : td.check_suspicious_extensions [] = (0, []) := by
      unfold ThreatDetector.check_suspicious_extensions
      simp
    have hsize : check_file_size_changes [] = (0, []) := by
      unfold check_file_size_changes
      simp [firstOccurrences]
    rw [hmod, hext, hsize]
    simp
  · rw [if_neg hemp]
    have key : ∀ a : Nat, (decide (50 ≤ a) = true ↔ 50 ≤ min a 100) := by
      intro a
      simp only [decide_eq_true_eq, Nat.le_min]
      omega
    exact ⟨rfl, key _, Nat.min_le_right _ _⟩

/-- Closed witness for C1 at a concrete detector and batch. -/
theorem C1_total_score_and_threat_floor_witness :
    0 < (ThreatDetector.init 5 10 defaultSuspiciousExtensions).detection_threshold ∧
      (((ThreatDetector.init 5 10 defaultSuspiciousExtensions).analyze_events 5
          sevenModEvents).threat_score =
        min (((ThreatDetector.init 5 10 defaultSuspiciousExtensions).check_modification_rate
            ((ThreatDetector.init 5 10 defaultSuspiciousExtensions).filter_recent_events 5
              sevenModEvents)).1 +
          ((ThreatDetector.init 5 10 defaultSuspiciousExtensions).check_suspicious_extensions
            ((ThreatDetector.init 5 10 defaultSuspiciousExtensions).filter_recent_events 5
              sevenModEvents)).1 +
          (check_file_size_changes
            ((ThreatDetector.init 5 10 defaultSuspiciousExtensions).filter_recent_events 5
              sevenModEvents)).1) 100
      ∧ (((ThreatDetector.init 5 10 defaultSuspiciousExtensions).analyze_events 5
            sevenModEvents).is_threat = true ↔
          50 ≤ ((ThreatDetector.init 5 10 defaultSuspiciousExtensions).analyze_events 5
            sevenModEvents).threat_score)
      ∧ ((ThreatDetector.init 5 10 defaultSuspiciousExtensions).analyze_events 5
          sevenModEvents).threat_score ≤ 100) :=
  ⟨by decide, C1_total_score_and_threat_floor _ 5 sevenModEvents (by decide)⟩

/-- C2: the rate sub-score is `min (30 + 5*(n - detectionThreshold)) 50` when
the count `n` of `created`/`modified` events reaches `detectionThreshold`,
else 0; and with `detectionThreshold = 5` and 7 modify events it is 40. -/
theorem C2_rate_subscore :
    (∀ (td : ThreatDetector) (events : List FileEvent),
      (td.check_modification_rate events).1 =
        (let n := events.countP
            (fun e => decide (e.event_type = "created" ∨ e.event_type = "modified"))
         if td.detection_threshold ≤ n then
           min (30 + 5 * (n - td.detection_threshold)) 50
         else 0))
    ∧ ((⟨5, 10, defaultSuspiciousExtensions⟩ : ThreatDetector).check_modification_rate
        sevenModEvents).1 = 40 := by
  constructor
  · intro td events
    simp only [ThreatDetector.check_modification_rate, List.countP_eq_length_filter]
    have hf : events.filter
          (fun e => decide (e.event_type = "created" ∨ e.event_type = "modified"))
        = events.filter isModificationEvent := by
      apply List.filter_congr
      intro e _
      rw [isModificationEvent_eq]
    rw [hf]
    by_cases h : td.detection_threshold ≤ (events.filter isModificationEvent).length
    · simp [h, Nat.mul_comm]
    · simp [h]
  · decide

/-- C3: the extension sub-score is `min (40 + 10*m) 60` when the count `m` of
`created`/`modified` events whose lower-cased path ends with a stored
suspicious extension is positive, else 0; and with exactly two `.locked`
files (mixed case) under the default configuration it is 60. -/
theorem C3_extension_subscore :
    (∀ (td : ThreatDetector) (events : List FileEvent),
      (td.check_suspicious_extensions events).1 =
        (let m := events.countP (fun e => decide
            ((e.event_type = "created" ∨ e.event_type = "modified") ∧
              ∃ ext ∈ td.suspicious_extensions, strEndsWith (strToLower e.file_path) ext))
         if 0 < m then min (40 + 10 * m) 60 else 0))
    ∧ ((ThreatDetector.init 5 10 defaultSuspiciousExtensions).check_suspicious_extensions
        twoLockedEvents).1 = 60 := by
  constructor
  · intro td events
    simp only [ThreatDetector.check_suspicious_extensions, List.length_map,
      List.countP_eq_length_filter]
    have hf : events.filter (fun e => decide
          ((e.event_type = "created" ∨ e.event_type = "modified") ∧
            ∃ ext ∈ td.suspicious_extensions, strEndsWith (strToLower e.file_path) ext))
        = events.filter
            (fun e => isModificationEvent e && td.has_stored_suspicious_ext e.file_path) := by
      apply List.filter_congr
      intro e _
      rw [Bool.eq_iff_iff]
      simp [isModificationEvent, ThreatDetector.has_stored_suspicious_ext, or_comm]
    rw [hf]
    by_cases h :
        0 < (events.filter
          (fun e => isModificationEvent e && td.has_stored_suspicious_ext e.file_path)).length
    · simp [h, Nat.mul_comm]
    · simp [h]
  · decide

/-- C4: the growth sub-score is `min (20 + 5*k) 30` when the number `k` of
paths whose timestamp-sorted `modified` group contains a consecutive pair
with positive previous size and a strictly-more-than-20-percent increase is
positive, else 0; a 100→130 byte jump is flagged (score 25) while a 100→110
byte jump is not (score 0). -/
theorem C4_growth_subscore :
    (∀ events : List FileEvent,
      (check_file_size_changes events).1 =
        (let modified := events.filter (fun e => e.event_type == "modified")
         let k := (firstOccurrences (modified.map (·.file_path))).countP
            (fun p => decide (growthFlagged
              (sortByTimestamp (modified.filter (fun e => e.file_path == p)))))
         if 0 < k then min (20 + 5 * k) 30 else 0))
    ∧ (check_file_size_changes growthPairEvents).1 = 25
    ∧ (check_file_size_changes growthPairEvents).2 = ["a.txt"]
    ∧ (check_file_size_changes smallGrowthPairEvents).1 = 0 := by
  refine ⟨?_, by decide, by decide, by decide⟩
  intro events
  simp only [check_file_size_changes, List.countP_eq_length_filter]
  have hf : ∀ modified : List FileEvent,
      (firstOccurrences (modified.map (·.file_path))).filter
          (fun p => decide (growthFlagged
            (sortByTimestamp (modified.filter (fun e => e.file_path == p)))))
        = (firstOccurrences (modified.map (·.file_path))).filter
            (fun p => hasSuspiciousGrowth
              (sortByTimestamp (modified.filter (fun e => e.file_path == p)))) := by
    intro modified
    apply List.filter_congr
    intro p _
    rw [Bool.eq_iff_iff]
    simp [hasSuspiciousGrowth_iff]
  rw [hf]
  by_cases h :
      0 < ((firstOccurrences ((events.filter (fun e => e.event_type == "modified")).map
        (·.file_path))).filter
          (fun p => hasSuspiciousGrowth
            (sortByTimestamp ((events.filter (fun e => e.event_type == "modified")).filter
              (fun e => e.file_path == p))))).length
  · rw [if_pos h, if_pos h, Nat.mul_comm 5]
  · rw [if_neg h, if_neg h]

/-! Part 9: helper lemmas for the snapshot store. -/

/-- Inserting one record grows the list by one. -/
theorem insertRecordDesc_length (r : BackupRecord) (l : List BackupRecord) :
    (insertRecordDesc r l).length = l.length + 1 := by
  induction l with
  | nil => rfl
  | cons x xs ih =>
    unfold insertRecordDesc
    split
    · simp [ih]
    · simp

/-- Sorting preserves length. -/
theorem sortRecordsDesc_length (l : List BackupRecord) :
    (sortRecordsDesc l).length = l.length := by
  suffices h : ∀ acc : List BackupRecord,
      (l.foldl (fun acc r => insertRecordDesc r acc) acc).length = acc.length + l.length by
    simpa [sortRecordsDesc] using h []
  induction l with
  | nil => simp
  | cons x xs ih =>
    intro acc
    simp only [List.foldl_cons, ih, insertRecordDesc_length, List.length_cons]
    omega

/-- Reading the index at the updated key. -/
theorem setRecords_same (bm : BackupManager) (key : String) (records : List BackupRecord) :
    (bm.setRecords key records).backup_records key = records := by
  simp [BackupManager.setRecords]

/-- Reading the index at any other key. -/
theorem setRecords_other (bm : BackupManager) (key : String) (records : List BackupRecord)
    (q : String) (hq : q ≠ key) :
    (bm.setRecords key records).backup_records q = bm.backup_records q := by
  simp [BackupManager.setRecords, hq]

/-- After eviction the cleaned path holds at most `retention_count` records. -/
theorem cleanup_length_le (bm : BackupManager) (fs : FS) (key : String) :
    (((bm.cleanup_old_backups fs key).1).backup_records key).length ≤ bm.retention_count := by
  unfold BackupManager.cleanup_old_backups
  by_cases hle : (sortRecordsDesc (bm.backup_records key)).length ≤ bm.retention_count
  · rw [if_pos hle]
    simpa [setRecords_same] using hle
  · rw [if_neg hle]
    simp only [setRecords_same, List.length_take]
    omega

/-- Eviction on one key leaves every other key's records unchanged. -/
theorem cleanup_records_other (bm : BackupManager) (fs : FS) (key q : String)
    (hq : q ≠ key) :
    ((bm.cleanup_old_backups fs key).1).backup_records q = bm.backup_records q := by
  unfold BackupManager.cleanup_old_backups
  by_cases hle : (sortRecordsDesc (bm.backup_records key)).length ≤ bm.retention_count
  · simp only [if_pos hle]
    exact setRecords_other _ _ _ _ hq
  · simp only [if_neg hle]
    exact setRecords_other _ _ _ _ hq

/-- Eviction does not touch the retention limit. -/
theorem cleanup_retention_count (bm : BackupManager) (fs : FS) (key : String) :
    ((bm.cleanup_old_backups fs key).1).retention_count = bm.retention_count := by
  unfold BackupManager.cleanup_old_backups
  by_cases hle : (sortRecordsDesc (bm.backup_records key)).length ≤ bm.retention_count
  · simp only [if_pos hle]
    rfl
  · simp only [if_neg hle]
    rfl

/-- `create_backup` when the source does not exist: the `try` body raises
`FileNotFoundError`. -/
theorem create_backup_body_err_none (bm : BackupManager) (fs : FS) (path : String)
    (now : Int) (hsrc : fs.files path = none) :
    bm.create_backup_body fs path now =
      .error (.fileNotFound s!"Source file does not exist: {path}") := by
  unfold BackupManager.create_backup_body
  rw [hsrc]

/-- `create_backup` when the copy raises: the `try` body raises an `OSError`. -/
theorem create_backup_body_err_copy (bm : BackupManager) (fs : FS) (path : String)
    (now : Int) (data : FileData) (hsrc : fs.files path = some data)
    (hcf : fs.copy_fails path (backup_name bm path now) = true) :
    bm.create_backup_body fs path now = .error (.ioError s!"Copy failed: {path}") := by
  unfold BackupManager.create_backup_body FS.copy2
  rw [hsrc]
  simp [hcf]

/-- The `except` handler of `create_backup`: any raise inside the `try` body
becomes the failure result `None` and leaves the store and the filesystem
exactly as they were. -/
theorem create_backup_of_body_error (bm : BackupManager) (fs : FS) (path : String)
    (now : Int) (e : PyError) (h : bm.create_backup_body fs path now = .error e) :
    bm.create_backup fs path now = (none, bm, fs) := by
  unfold BackupManager.create_backup
  rw [h]

/-- The successful path of `create_backup`, spelled out. -/
theorem create_backup_ok (bm : BackupManager) (fs : FS) (path : String) (now : Int)
    (data : FileData) (hsrc : fs.files path = some data)
    (hcf : fs.copy_fails path (backup_name bm path now) = false) :
    bm.create_backup fs path now =
      (let backup_record : BackupRecord :=
        { original_path := path, backup_path := backup_name bm path now,
          timestamp := now, file_size := data.size }
       let bm1 := bm.setRecords path (bm.backup_records path ++ [backup_record])
       let fs1 := fs.write (backup_name bm path now) data
       let cleaned := bm1.cleanup_old_backups fs1 path
       (some backup_record, cleaned.1, cleaned.2.1)) := by
  unfold BackupManager.create_backup BackupManager.create_backup_body FS.copy2
  rw [hsrc]
  simp [hcf]

/-! Part 10: claims about the snapshot store. -/

/-- C5: after every successful `create_backup`, the store holds at most
`retention_count` records for the backed-up path and other paths' histories
are untouched; and creating `retention_count + 1 = 3` backups of the same
path (timestamps 0, 1, 2, retention 2) succeeds each time and leaves exactly
the two newest records in the index, the oldest record evicted and its
backing file deleted from disk while the two newest backing files remain. -/
theorem C5_retention_eviction (bm : BackupManager) (fs : FS) (path : String) (now : Int)
    (h : (bm.create_backup fs path now).1.isSome = true) :
    ((bm.create_backup fs path now).2.1.backup_records path).length ≤ bm.retention_count
    ∧ (∀ q, q ≠ path →
        (bm.create_backup fs path now).2.1.backup_records q = bm.backup_records q)
    ∧ retentionStep1.1.isSome = true
    ∧ retentionStep2.1.isSome = true
    ∧ retentionStep3.1.isSome = true
    ∧ retentionStep3.2.1.backup_records "/data/f.txt" =
        [{ original_path := "/data/f.txt",
           backup_path := backup_name retentionTwoBM "/data/f.txt" 2,
           timestamp := 2, file_size := 4 },
         { original_path := "/data/f.txt",
           backup_path := backup_name retentionTwoBM "/data/f.txt" 1,
           timestamp := 1, file_size := 4 }]
    ∧ retentionStep3.2.2.files (backup_name retentionTwoBM "/data/f.txt" 0) = none
    ∧ (retentionStep3.2.2.files (backup_name retentionTwoBM "/data/f.txt" 1)).isSome = true
    ∧ (retentionStep3.2.2.files (backup_name retentionTwoBM "/data/f.txt" 2)).isSome = true := by
  refine ⟨?_, ?_, by decide, by decide, by decide, by decide, by decide, by decide, by decide⟩
  · cases hsrc : fs.files path with
    | none =>
      rw [create_backup_of_body_error bm fs path now _
        (create_backup_body_err_none bm fs path now hsrc)] at h
      simp at h
    | some data =>
      cases hcf : fs.copy_fails path (backup_name bm path now) with
      | true =>
        rw [create_backup_of_body_error bm fs path now _
          (create_backup_body_err_copy bm fs path now data hsrc hcf)] at h
        simp at h
      | false =>
        rw [create_backup_ok bm fs path now data hsrc hcf]
        exact cleanup_length_le _ _ _
  · intro q hq
    cases hsrc : fs.files path with
    | none =>
      rw [create_backup_of_body_error bm fs path now _
        (create_backup_body_err_none bm fs path now hsrc)] at h
      simp at h
    | some data =>
      cases hcf : fs.copy_fails path (backup_name bm path now) with
      | true =>
        rw [create_backup_of_body_error bm fs path now _
          (create_backup_body_err_copy bm fs path now data hsrc hcf)] at h
        simp at h
      | false =>
        rw [create_backup_ok bm fs path now data hsrc hcf]
        rw [cleanup_records_other _ _ _ _ hq]
        exact setRecords_other _ _ _ _ hq

/-- Closed witness for C5 at the scenario's first creation. -/
theorem C5_retention_eviction_witness :
    (retentionTwoBM.create_backup oneFileFS "/data/f.txt" 0).1.isSome = true
    ∧ (((retentionTwoBM.create_backup oneFileFS "/data/f.txt" 0).2.1.backup_records
          "/data/f.txt").length ≤ retentionTwoBM.retention_count
      ∧ (∀ q, q ≠ "/data/f.txt" →
          (retentionTwoBM.create_backup oneFileFS "/data/f.txt" 0).2.1.backup_records q =
            retentionTwoBM.backup_records q)
      ∧ retentionStep1.1.isSome = true
      ∧ retentionStep2.1.isSome = true
      ∧ retentionStep3.1.isSome = true
      ∧ retentionStep3.2.1.backup_records "/data/f.txt" =
          [{ original_path := "/data/f.txt",
             backup_path := backup_name retentionTwoBM "/data/f.txt" 2,
             timestamp := 2, file_size := 4 },
           { original_path := "/data/f.txt",
             backup_path := backup_name retentionTwoBM "/data/f.txt" 1,
             timestamp := 1, file_size := 4 }]
      ∧ retentionStep3.2.2.files (backup_name retentionTwoBM "/data/f.txt" 0) = none
      ∧ (retentionStep3.2.2.files (backup_name retentionTwoBM "/data/f.txt" 1)).isSome = true
      ∧ (retentionStep3.2.2.files (backup_name retentionTwoBM "/data/f.txt" 2)).isSome
          = true) :=
  ⟨by decide, C5_retention_eviction retentionTwoBM oneFileFS "/data/f.txt" 0 (by decide)⟩

/-- C8: `create_backup` answers a missing source with the failure result
`None` — store and filesystem unchanged — and, in general, every raise inside
its `try` body (missing source, failing copy) is caught by the handler and
reported as the failure result `None` to the caller; no error propagates past
the call. -/
theorem C8_create_backup_never_raises :
    (∀ (bm : BackupManager) (fs : FS) (path : String) (now : Int),
      fs.files path = none → bm.create_backup fs path now = (none, bm, fs))
    ∧ (∀ (bm : BackupManager) (fs : FS) (path : String) (now : Int) (e : PyError),
      bm.create_backup_body fs path now = .error e →
        bm.create_backup fs path now = (none, bm, fs)) := by
  constructor
  · intro bm fs path now hsrc
    exact create_backup_of_body_error bm fs path now _
      (create_backup_body_err_none bm fs path now hsrc)
  · intro bm fs path now e h
    exact create_backup_of_body_error bm fs path now e h

/-- Closed witness for C8: a backup of a file absent from an empty filesystem
fails without touching anything. -/
theorem C8_create_backup_never_raises_witness :
    emptyFS.files "/data/f.txt" = none
    ∧ retentionTwoBM.create_backup emptyFS "/data/f.txt" 0 =
        (none, retentionTwoBM, emptyFS) :=
  ⟨rfl, C8_create_backup_never_raises.1 retentionTwoBM emptyFS "/data/f.txt" 0 rfl⟩

/-! Part 11: helper lemmas for the restore coordinator. -/

/-- Overwriting a path makes it hold the written data. -/
theorem FS.write_same (fs : FS) (path : String) (data : FileData) :
    (fs.write path data).files path = some data := by
  simp [FS.write]

/-- Every branch of a single restore attempt reports the tried backup's path
as `backup_used`. -/
theorem attempt_backup_used (fs : FS) (p : String) (r : BackupRecord) (vi : Bool) :
    (attempt_restore_from_backup fs p r vi).1.backup_used = some r.backup_path := by
  cases hb : fs.files r.backup_path with
  | none =>
    unfold attempt_restore_from_backup
    rw [hb]
  | some data =>
    unfold attempt_restore_from_backup
    rw [hb]
    cases hcf : fs.copy_fails r.backup_path p with
    | true => simp [hcf]
    | false => simp [hcf]

/-- A failed restore attempt leaves the filesystem unchanged. -/
theorem attempt_fail_fs (fs : FS) (p : String) (r : BackupRecord) (vi : Bool)
    (h : (attempt_restore_from_backup fs p r vi).1.success = false) :
    (attempt_restore_from_backup fs p r vi).2 = fs := by
  cases hb : fs.files r.backup_path with
  | none =>
    unfold attempt_restore_from_backup
    rw [hb]
  | some data =>
    cases hcf : fs.copy_fails r.backup_path p with
    | true =>
      unfold attempt_restore_from_backup
      rw [hb]
      simp [hcf]
    | false =>
      exfalso
      unfold attempt_restore_from_backup at h
      rw [hb] at h
      simp [hcf] at h

/-- When every fallback attempt fails, the loop exhausts the list and yields
the failure whose message is the code's "All backup restoration attempts
failed" string. -/
theorem try_fallback_loop_all_fail (p : String) (vi : Bool) :
    ∀ (l : List BackupRecord) (fs : FS),
      (∀ r ∈ l, (attempt_restore_from_backup fs p r vi).1.success = false) →
      try_fallback_loop p vi l fs =
        ({ file_path := p, success := false, backup_used := none,
           error_message := some "All backup restoration attempts failed",
           verification_passed := false }, fs)
  | [], _, _ => rfl
  | r :: rest, fs, h => by
    have hr := h r (List.mem_cons_self r rest)
    have hfs := attempt_fail_fs fs p r vi hr
    unfold try_fallback_loop
    simp only [hr, Bool.false_eq_true, if_false]
    rw [hfs]
    exact try_fallback_loop_all_fail p vi rest fs
      (fun r' hm => h r' (List.mem_cons_of_mem _ hm))

/-- The loop returns the first successful attempt. -/
theorem try_fallback_loop_first_success (p : String) (vi : Bool) :
    ∀ (l₁ : List BackupRecord) (fs : FS) (r : BackupRecord) (l₂ : List BackupRecord),
      (∀ r' ∈ l₁, (attempt_restore_from_backup fs p r' vi).1.success = false) →
      (attempt_restore_from_backup fs p r vi).1.success = true →
      try_fallback_loop p vi (l₁ ++ r :: l₂) fs = attempt_restore_from_backup fs p r vi
  | [], fs, r, l₂, _, hs => by
    rw [List.nil_append]
    unfold try_fallback_loop
    simp [hs]
  | r₁ :: rest, fs, r, l₂, h, hs => by
    have hr := h r₁ (List.mem_cons_self r₁ rest)
    have hfs := attempt_fail_fs fs p r₁ vi hr
    rw [List.cons_append]
    unfold try_fallback_loop
    simp only [hr, Bool.false_eq_true, if_false]
    rw [hfs]
    exact try_fallback_loop_first_success p vi rest fs r l₂
      (fun r' hm => h r' (List.mem_cons_of_mem _ hm)) hs

/-- With at least one older version available, `_try_fallback_backups` runs
the loop over the newest-excluded list. -/
theorem try_fallback_backups_eq_loop (bm : BackupManager) (fs : FS) (p : String)
    (vi : Bool) (hne : (bm.list_backups p).tail ≠ []) :
    try_fallback_backups bm fs p vi =
      try_fallback_loop p vi (bm.list_backups p).tail fs := by
  unfold try_fallback_backups
  cases h : (bm.list_backups p).tail with
  | nil => exact absurd h hne
  | cons a t => simp [h]

/-- When the newest backup's attempt fails, `restore_file` continues with the
fallback chain on the unchanged filesystem. -/
theorem restore_file_latest_fail (bm : BackupManager) (fs : FS) (p : String) (vi : Bool)
    (latest : BackupRecord) (hl : bm.get_latest_backup p = some latest)
    (hf : (attempt_restore_from_backup fs p latest vi).1.success = false) :
    restore_file bm fs p vi = try_fallback_backups bm fs p vi := by
  unfold restore_file
  rw [hl]
  simp only [hf, Bool.false_eq_true, if_false]
  rw [attempt_fail_fs fs p latest vi hf]

/-- When the newest backup's attempt succeeds, `restore_file` returns it
directly: the fallback chain is never entered. -/
theorem restore_file_latest_success (bm : BackupManager) (fs : FS) (p : String)
    (vi : Bool) (latest : BackupRecord) (hl : bm.get_latest_backup p = some latest)
    (hs : (attempt_restore_from_backup fs p latest vi).1.success = true) :
    restore_file bm fs p vi = attempt_restore_from_backup fs p latest vi := by
  unfold restore_file
  rw [hl]
  simp [hs]

/-- Size match alone makes `verify_restoration` pass, whatever the hash
comparison says. -/
theorem verify_restoration_of_size_match (fs : FS) (file_path : String)
    (record : BackupRecord) (data : FileData) (h1 : fs.files file_path = some data)
    (h2 : data.size = record.file_size) :
    verify_restoration fs file_path record = true := by
  unfold verify_restoration
  rw [h1]
  simp [h2]

/-! Part 12: claims about the restore coordinator. -/

/-- C6 (amended): when the newest backup's restore attempt fails,
`restore_file` walks the remaining older versions in descending recency
order and returns the first successful attempt, whose `backup_used` is that
backup's path; when every older version also fails (at least one existing),
the result is a failure whose error message is the code's exact string
"All backup restoration attempts failed" (the claim's lower-case rendering
"all backup restoration attempts failed" differs from the code — see the
counterexample). -/
theorem C6_fallback_chain (bm : BackupManager) (fs : FS) (p : String) (vi : Bool)
    (latest : BackupRecord) (hl : bm.get_latest_backup p = some latest)
    (hfail : (attempt_restore_from_backup fs p latest vi).1.success = false) :
    (∀ (l₁ : List BackupRecord) (r : BackupRecord) (l₂ : List BackupRecord),
      (bm.list_backups p).tail = l₁ ++ r :: l₂ →
      (∀ r' ∈ l₁, (attempt_restore_from_backup fs p r' vi).1.success = false) →
      (attempt_restore_from_backup fs p r vi).1.success = true →
      (restore_file bm fs p vi).1 = (attempt_restore_from_backup fs p r vi).1
        ∧ (restore_file bm fs p vi).1.backup_used = some r.backup_path)
    ∧ ((bm.list_backups p).tail ≠ [] →
      (∀ r' ∈ (bm.list_backups p).tail,
        (attempt_restore_from_backup fs p r' vi).1.success = false) →
      (restore_file bm fs p vi).1.success = false
        ∧ (restore_file bm fs p vi).1.error_message =
            some "All backup restoration attempts failed") := by
  constructor
  · intro l₁ r l₂ hsplit hall hs
    have hne : (bm.list_backups p).tail ≠ [] := by
      rw [hsplit]
      simp
    have hres : restore_file bm fs p vi = attempt_restore_from_backup fs p r vi := by
      rw [restore_file_latest_fail bm fs p vi latest hl hfail,
        try_fallback_backups_eq_loop bm fs p vi hne, hsplit]
      exact try_fallback_loop_first_success p vi l₁ fs r l₂ hall hs
    rw [hres]
    exact ⟨rfl, attempt_backup_used fs p r vi⟩
  · intro hne hall
    rw [restore_file_latest_fail bm fs p vi latest hl hfail,
      try_fallback_backups_eq_loop bm fs p vi hne,
      try_fallback_loop_all_fail p vi _ fs hall]
    exact ⟨rfl, rfl⟩

/-- Counterexample to C6 as literally stated: with both backup files missing
from disk, every restoration attempt fails and the produced error message is
the capitalized "All backup restoration attempts failed", not the claim's
"all backup restoration attempts failed". -/
theorem C6_fallback_chain_counterexample :
    fallbackBM.get_latest_backup "/data/f.txt" = some fbRec2
    ∧ (attempt_restore_from_backup emptyFS "/data/f.txt" fbRec2 true).1.success = false
    ∧ (fallbackBM.list_backups "/data/f.txt").tail = [fbRec1]
    ∧ (attempt_restore_from_backup emptyFS "/data/f.txt" fbRec1 true).1.success = false
    ∧ (restore_file fallbackBM emptyFS "/data/f.txt" true).1.success = false
    ∧ (restore_file fallbackBM emptyFS "/data/f.txt" true).1.error_message =
        some "All backup restoration attempts failed"
    ∧ (restore_file fallbackBM emptyFS "/data/f.txt" true).1.error_message ≠
        some "all backup restoration attempts failed" := by
  decide

/-- Closed witness for C6: the newest backup's file is gone from disk, the
fallback succeeds with the next-newest and reports its path. -/
theorem C6_fallback_chain_witness :
    fallbackBM.get_latest_backup "/data/f.txt" = some fbRec2
    ∧ (attempt_restore_from_backup fallbackFS "/data/f.txt" fbRec2 true).1.success = false
    ∧ ((restore_file fallbackBM fallbackFS "/data/f.txt" true).1 =
        (attempt_restore_from_backup fallbackFS "/data/f.txt" fbRec1 true).1
      ∧ (restore_file fallbackBM fallbackFS "/data/f.txt" true).1.backup_used =
          some fbRec1.backup_path) :=
  ⟨by decide, by decide,
    (C6_fallback_chain fallbackBM fallbackFS "/data/f.txt" true fbRec2
        (by decide) (by decide)).1
      [] fbRec1 [] (by decide) (by simp) (by decide)⟩

/-- C7: once the restored file's size equals the record's recorded size,
`verify_restoration` returns `True` — also under an explicit content-hash
mismatch between the restored file and the backup file — and a restore
attempt with `verify_integrity=True` whose copy succeeded and whose sizes
match is reported as a success with verification passed. -/
theorem C7_hash_mismatch_is_warning_only :
    (∀ (fs : FS) (file_path : String) (record : BackupRecord) (data : FileData),
      fs.files file_path = some data → data.size = record.file_size →
      verify_restoration fs file_path record = true)
    ∧ (∀ (fs : FS) (file_path : String) (record : BackupRecord) (data : FileData),
      fs.files file_path = some data → data.size = record.file_size →
      verify_file_hash fs file_path record.backup_path = false →
      verify_restoration fs file_path record = true)
    ∧ (∀ (fs : FS) (file_path : String) (record : BackupRecord) (data : FileData),
      fs.files record.backup_path = some data →
      fs.copy_fails record.backup_path file_path = false →
      data.size = record.file_size →
      (attempt_restore_from_backup fs file_path record true).1.success = true
        ∧ (attempt_restore_from_backup fs file_path record true).1.verification_passed
            = true) := by
  refine ⟨?_, ?_, ?_⟩
  · intro fs file_path record data h1 h2
    exact verify_restoration_of_size_match fs file_path record data h1 h2
  · intro fs file_path record data h1 h2 _
    exact verify_restoration_of_size_match fs file_path record data h1 h2
  · intro fs file_path record data hb hcf h3
    unfold attempt_restore_from_backup
    rw [hb]
    simp only [hcf, Bool.false_eq_true, if_false]
    refine ⟨by trivial, ?_⟩
    show (if true then verify_restoration (fs.write file_path data) file_path record
      else true) = true
    rw [if_pos rfl]
    exact verify_restoration_of_size_match _ _ _ data (FS.write_same fs file_path data) h3

/-- Closed witness for C7: equal sizes, different contents — the hash check
fails yet verification passes. -/
theorem C7_hash_mismatch_is_warning_only_witness :
    mismatchFS.files "/data/f.txt" = some { size := 4, content := 9 }
    ∧ (FileData.size { size := 4, content := 9 }) = fbRec1.file_size
    ∧ verify_file_hash mismatchFS "/data/f.txt" fbRec1.backup_path = false
    ∧ verify_restoration mismatchFS "/data/f.txt" fbRec1 = true :=
  ⟨by decide, by decide, by decide,
    C7_hash_mismatch_is_warning_only.2.1 mismatchFS "/data/f.txt" fbRec1
      { size := 4, content := 9 } (by decide) (by decide) (by decide)⟩

/-- C9: whenever the backup file exists and the copy over the target does not
raise, the single-attempt result has `success = True` no matter what
verification would say — `verification_passed` merely records the
verification verdict — and a successful newest-backup attempt means
`restore_file` returns it without ever entering the fallback chain. -/
theorem C9_copy_success_decides_success :
    (∀ (fs : FS) (p : String) (record : BackupRecord) (vi : Bool) (data : FileData),
      fs.files record.backup_path = some data →
      fs.copy_fails record.backup_path p = false →
      (attempt_restore_from_backup fs p record vi).1.success = true
        ∧ (attempt_restore_from_backup fs p record vi).1.verification_passed =
            (if vi then verify_restoration (fs.write p data) p record else true))
    ∧ (∀ (bm : BackupManager) (fs : FS) (p : String) (vi : Bool) (latest : BackupRecord),
      bm.get_latest_backup p = some latest →
      (attempt_restore_from_backup fs p latest vi).1.success = true →
      restore_file bm fs p vi = attempt_restore_from_backup fs p latest vi) := by
  constructor
  · intro fs p record vi data hb hcf
    unfold attempt_restore_from_backup
    rw [hb]
    simp only [hcf, Bool.false_eq_true, if_false]
    exact ⟨by trivial, by trivial⟩
  · intro bm fs p vi latest hl hs
    exact restore_file_latest_success bm fs p vi latest hl hs

/-- Closed witness for C9: the record's size (999) matches nothing, so
verification fails, yet the attempt succeeds. -/
theorem C9_copy_success_decides_success_witness :
    mismatchFS.files badSizeRec.backup_path = some { size := 4, content := 8 }
    ∧ mismatchFS.copy_fails badSizeRec.backup_path "/data/f.txt" = false
    ∧ ((attempt_restore_from_backup mismatchFS "/data/f.txt" badSizeRec true).1.success
          = true
      ∧ (attempt_restore_from_backup mismatchFS "/data/f.txt" badSizeRec
            true).1.verification_passed =
          (if true then
            verify_restoration (mismatchFS.write "/data/f.txt" { size := 4, content := 8 })
              "/data/f.txt" badSizeRec
          else true))
    ∧ (attempt_restore_from_backup mismatchFS "/data/f.txt"
        badSizeRec true).1.verification_passed = false :=
  ⟨by decide, by decide,
    C9_copy_success_decides_success.1 mismatchFS "/data/f.txt" badSizeRec true
      { size := 4, content := 8 } (by decide) (by decide),
    by decide⟩

end RecoverX
